import Mathlib

/-!
Shallow embedding of `mastodon-streaming-listener.js` (the session manager of
the mastodon-streaming-listener repository) and proofs about it.

Conventions of the embedding:
* JS objects used as string-keyed maps (`appMap`, `instanceMap`) become
  association lists `List (String × _)` with first-match lookup.
* JS falsiness tests on strings (`if (!s)`) become `s = ""` tests.
* Timestamps (`(new Date()).getTime()`, the `lastUpdate` BIGINT column) are
  modelled as `Int` milliseconds.
* The validators return `Option String`: `some msg` is the error message the
  source returns, `none` is the `null` it returns on success.
* Stateful code (the `wsStorage` registry, sockets, timers, the database row
  for one registration) is modelled by explicit state passing over `St`, with
  the socket/timer event interleaving given by a step function over events.
-/

/-- An entry of `config/app_map.hjson`: maps an appId to its secret. -/
structure AppEntry where
  secret : String
deriving DecidableEq, Repr

/-- An entry of `config/instance_map.hjson`: presence allows the instance;
`replaceUrl`, when present and non-empty, reroutes the socket connection. -/
structure InstanceEntry where
  replaceUrl : Option String
deriving DecidableEq, Repr

/-- First-match lookup in an association list, as JS property access on the
Hjson-parsed config objects. -/
def alookup {α : Type} : List (String × α) → String → Option α
  | [], _ => none
  | (k, v) :: rest, key => if k = key then some v else alookup rest key

/-- The `stream_listener_registration` row / the registration object passed to
`connectForUser` and `disconnectForUser`. -/
structure Registration where
  lastUpdate : Int
  instanceUrl : String
  accessToken : String
  appId : String
  appSecret : String
  callbackUrl : String
  tag : String
deriving DecidableEq, Repr

/-- Model of `checkAppId(appId, appSecret)` from the source: empty appId, missing app
entry, or secret mismatch yield an error message; otherwise `null`. -/
def checkAppId (appMap : List (String × AppEntry)) (appId appSecret : String) :
    Option String :=
  if appId = "" then some "missing app_id"
  else
    match alookup appMap appId with
    | none => some ("missing app configuration for app: " ++ appId)
    | some appEntry =>
      if appEntry.secret ≠ appSecret then some "app_secret not match."
      else none

/-- Model of `checkInstanceUrl(instanceUrl)` from the source: empty URL is rejected;
otherwise the URL must be present in the instance map, or the wildcard
entry must be. -/
def checkInstanceUrl (instanceMap : List (String × InstanceEntry))
    (instanceUrl : String) : Option String :=
  if instanceUrl = "" then some "missing instance_url"
  else
    match alookup instanceMap instanceUrl with
    | some _ => none
    | none =>
      match alookup instanceMap "*" with
      | some _ => none
      | none => some ("missing instance configuration for instance: " ++ instanceUrl)

/-- Model of `getReplaceUrl(instanceUrl)` from the source: a truthy `replaceUrl` of the
instance entry replaces the URL, otherwise the URL is returned unchanged. -/
def getReplaceUrl (instanceMap : List (String × InstanceEntry))
    (instanceUrl : String) : String :=
  if instanceUrl ≠ "" then
    match alookup instanceMap instanceUrl with
    | some instanceEntry =>
      match instanceEntry.replaceUrl with
      | some replaceUrl => if replaceUrl ≠ "" then replaceUrl else instanceUrl
      | none => instanceUrl
    | none => instanceUrl
  else instanceUrl

/-- The character class `[?&=/]` of `checkAccessToken`. -/
def isInvalidTokenChar (c : Char) : Bool :=
  c = '?' || c = '&' || c = '=' || c = '/'

/-- Model of `checkAccessToken(accessToken)` from the source: empty tokens and tokens
containing any of the characters `? & = /` are rejected. -/
def checkAccessToken (accessToken : String) : Option String :=
  if accessToken = "" then some "missing access_token"
  else if accessToken.data.any isInvalidTokenChar then
    some "access_token contains invalid character"
  else none

/-- The registry key built by both `connectForUser` and `disconnectForUser`:
the template string `instanceUrl:appId:tag`. -/
def wsKey (instanceUrl appId tag : String) : String :=
  instanceUrl ++ ":" ++ appId ++ ":" ++ tag

/-- The registry key of a registration. -/
def regKey (registration : Registration) : String :=
  wsKey registration.instanceUrl registration.appId registration.tag

/-- The upstream socket URL that `reconnect()` connects to. -/
def streamUrl (instanceMap : List (String × InstanceEntry))
    (registration : Registration) : String :=
  getReplaceUrl instanceMap registration.instanceUrl ++
    "/api/v1/streaming/?access_token=" ++ registration.accessToken ++
    "&stream=user"

/-- A parsed upstream frame, `JSON.parse(data)` restricted to the two fields
the handler reads; the payload is opaque. -/
structure Frame (P : Type) where
  event : String
  payload : P
deriving DecidableEq, Repr

/-- The outbound message `onMessage` builds for the callback. -/
structure OutMessage (P : Type) where
  instanceUrl : String
  tag : String
  appId : String
  payload : P
deriving DecidableEq, Repr

/-- One outbound `axios.post`: destination URL, JSON body and the
`Content-Type` header value. -/
structure HttpPost (P : Type) where
  url : String
  body : OutMessage P
  contentType : String
deriving DecidableEq, Repr

/-- The `onMessage` handler from the source: frames whose `event` is not
`notification` are dropped; a notification frame produces exactly one POST of
`{instanceUrl, tag, appId, payload}` to the callback URL of the registration. -/
def onMessage {P : Type} (registration : Registration) (json : Frame P) :
    Option (HttpPost P) :=
  if json.event ≠ "notification" then none
  else
    some ⟨registration.callbackUrl,
      ⟨registration.instanceUrl, registration.tag, registration.appId,
        json.payload⟩,
      "application/json"⟩

/-!
## Session state for one registration key

`wsStorage[ws_key]` holds at most one socket per key, so the per-key state is:
the stored socket (if any), the set of constructed-and-not-yet-closed sockets
(identified by creation order), the pending `setTimeout(reconnect, 5000)`
timers with their delays, whether the database still holds the registration
row, whether the heartbeat interval of the session closure is active, and the next
fresh socket id.
-/

/-- Per-registration-key runtime state. `live` lists sockets that have been
constructed and not closed, in creation order; `timers` lists the delays of
pending reconnect timeouts. -/
structure St where
  stored : Option Nat
  live : List Nat
  timers : List Nat
  dbHasReg : Bool
  heartbeat : Bool
  nextId : Nat
deriving DecidableEq, Repr

/-- Model of `disconnectForUser`, with the outcome of `registration.destroy()` made
explicit: the stored socket (if any) is closed and the registry entry deleted
first, then the destroy is attempted; a rejected destroy is unhandled. -/
def disconnectForUserF (st : St) (destroyOk : Bool) : St :=
  let st1 :=
    match st.stored with
    | some t => { st with stored := none, live := st.live.filter (· ≠ t) }
    | none => st
  if destroyOk then { st1 with dbHasReg := false } else st1

/-- Model of `disconnectForUser` when the destroy succeeds. -/
def disconnectForUser (st : St) : St :=
  disconnectForUserF st true

/-- The `close()` helper of `connectForUser`: `clearInterval(heartbeat)`
followed by `disconnectForUser(registration)`. -/
def closeFn (st : St) : St :=
  disconnectForUser { st with heartbeat := false }

/-- The body of `reconnect()`: clears the heartbeat interval, constructs a new
`WebSocket` and stores it under the key; the previously stored socket is
neither checked nor closed. -/
def reconnectFn (st : St) : St :=
  { st with
    heartbeat := false
    live := st.live ++ [st.nextId]
    stored := some st.nextId
    nextId := st.nextId + 1 }

/-- The `onClose` handler: a close with code 1000 runs `close()`; any other
code schedules `reconnect` after a fixed 5000 ms timeout. -/
def onCloseFn (st : St) (code : Int) : St :=
  if code = 1000 then closeFn st
  else { st with timers := st.timers ++ [5000] }

/-- The `onError` handler: schedules `reconnect` after a fixed 5000 ms
timeout. -/
def onErrorFn (st : St) : St :=
  { st with timers := st.timers ++ [5000] }

/-- Outcome of a `connectForUser` call. -/
inductive ConnectResult where
  | alreadyRegistered
  | validationFailed (msg : String)
  | socketCreated (url : String)
deriving DecidableEq, Repr

/-- Model of `connectForUser(registration)`: no-op if a socket is already stored for
the key; otherwise validates appId/appSecret and instanceUrl (the access
token is not checked here), calling `close()` on failure, and on success runs
`reconnect()`, constructing the upstream socket. -/
def connectForUserFn (appMap : List (String × AppEntry))
    (instanceMap : List (String × InstanceEntry)) (st : St)
    (registration : Registration) : St × ConnectResult :=
  if st.stored.isSome then (st, .alreadyRegistered)
  else
    match checkAppId appMap registration.appId registration.appSecret with
    | some e => (closeFn st, .validationFailed e)
    | none =>
      match checkInstanceUrl instanceMap registration.instanceUrl with
      | some e => (closeFn st, .validationFailed e)
      | none => (reconnectFn st, .socketCreated (streamUrl instanceMap registration))

/-- Events that can occur for one registration key: a `connectForUser` call, a
socket error event, a socket close event with a code, and the firing of a
pending reconnect timer. -/
inductive Ev where
  | connectUser (appMap : List (String × AppEntry))
      (instanceMap : List (String × InstanceEntry)) (registration : Registration)
  | sockError (sid : Nat)
  | sockClose (sid : Nat) (code : Int)
  | timerFire
deriving Repr

/-- Small-step event semantics: `none` when the event is not enabled. An
error event fires on a live socket; a close event fires on a live socket and
removes it from the live set before running the handler; a timer firing
consumes one pending timeout and runs `reconnect()`. -/
def stepEv (st : St) : Ev → Option St
  | .connectUser appMap instanceMap registration =>
    some (connectForUserFn appMap instanceMap st registration).1
  | .sockError sid =>
    if sid ∈ st.live then some (onErrorFn st) else none
  | .sockClose sid code =>
    if sid ∈ st.live then
      some (onCloseFn { st with live := st.live.filter (· ≠ sid) } code)
    else none
  | .timerFire =>
    match st.timers with
    | [] => none
    | _ :: rest => some (reconnectFn { st with timers := rest })

/-- Run a sequence of events from a state; fails if some event is not
enabled. -/
def runEvents (st : St) : List Ev → Option St
  | [] => some st
  | e :: rest =>
    match stepEv st e with
    | none => none
    | some st1 => runEvents st1 rest

/-- The state of a key nobody has connected yet, with the registration row
present in the store. -/
def initSt : St :=
  ⟨none, [], [], true, false, 0⟩

/-!
## Heartbeat expiry check and the register endpoint
-/

/-- The row returned by `Registration.findOne` in the expiry check; only
`lastUpdate` is read. -/
structure RegRecord where
  lastUpdate : Int
deriving DecidableEq, Repr

/-- The decision of the `findOne` callback in the heartbeat: terminate when
the row is missing, or when `now - r.lastUpdate >= 86400000 * 3`. -/
def expiryDecision (now : Int) (r : Option RegRecord) : Bool :=
  match r with
  | none => true
  | some rec => decide (now - rec.lastUpdate ≥ 86400000 * 3)

/-- The state effect of one expiry check that has fired (read the row `r` at
time `now`): `close()` on a terminating decision, otherwise nothing. -/
def heartbeatExpiry (st : St) (now : Int) (r : Option RegRecord) : St :=
  if expiryDecision now r then closeFn st else st

/-- Value of `let last_check = 0` in `connectForUser`: the initial value of the
last-store-read clock, not reset when the socket opens. -/
def connectInitialLastCheck : Int := 0

/-- The store-read gate of the heartbeat tick at time `now` with clock
`lastCheck`: fires (and updates the clock) iff `now - lastCheck >= 86400000`. -/
def tickGate (lastCheck now : Int) : Bool × Int :=
  if now - lastCheck ≥ 86400000 then (true, now) else (false, lastCheck)

/-- The times, among the tick times `ticks`, at which the heartbeat re-reads
the registration from the store, starting from clock value `lastCheck`. -/
def tickReads (lastCheck : Int) : List Int → List Int
  | [] => []
  | now :: rest =>
    if now - lastCheck ≥ 86400000 then now :: tickReads now rest
    else tickReads lastCheck rest

/-- Model of `instance_url.toLowerCase()`, as per-character lowering. -/
def toLowerCase (s : String) : String :=
  String.mk (s.data.map Char.toLower)

/-- The validation pipeline of the `/register` endpoint, in source order:
`checkInstanceUrl` on the lowercased URL, then `checkAccessToken`, then
`checkAppId`; the first error is sent as HTTP 400 and `connectForUser` never
runs. -/
def registerCheck (appMap : List (String × AppEntry))
    (instanceMap : List (String × InstanceEntry))
    (instance_url access_token app_id app_secret : String) : Option String :=
  match checkInstanceUrl instanceMap (toLowerCase instance_url) with
  | some e => some e
  | none =>
    match checkAccessToken access_token with
    | some e => some e
    | none => checkAppId appMap app_id app_secret

/-!
## Helper lemmas
-/

/-- Calling `close()` always leaves the registry entry for the key deleted. -/
theorem closeFn_stored (st : St) : (closeFn st).stored = none := by
  cases h : st.stored <;>
    simp [closeFn, disconnectForUser, disconnectForUserF, h]

/-- Calling `close()` always destroys the registration row. -/
theorem closeFn_dbHasReg (st : St) : (closeFn st).dbHasReg = false := by
  cases h : st.stored <;>
    simp [closeFn, disconnectForUser, disconnectForUserF, h]

/-!
## Claims
-/

/-- C1: while the session is open, a frame whose `event` equals
`notification` produces exactly one HTTP POST to the
`callbackUrl`, with JSON body `{instanceUrl, tag, appId, payload}` carrying
callback URL of the registration, carrying the payload of the frame unchanged, with header `Content-Type: application/json`;
a frame with any other event value produces no outbound call and no error. -/
theorem C1_onMessage_spec {P : Type} (registration : Registration)
    (json : Frame P) :
    (json.event = "notification" →
      onMessage registration json =
        some ⟨registration.callbackUrl,
          ⟨registration.instanceUrl, registration.tag, registration.appId,
            json.payload⟩,
          "application/json"⟩) ∧
    (json.event ≠ "notification" → onMessage registration json = none) := by
  constructor
  · intro h
    simp [onMessage, h]
  · intro h
    simp [onMessage, h]

theorem C1_onMessage_spec_witness :
    onMessage ⟨0, "https://example.social", "abc123", "app1", "sec",
        "https://client/cb", "t1"⟩
      (⟨"notification", (42 : Nat)⟩ : Frame Nat) =
      some ⟨"https://client/cb",
        ⟨"https://example.social", "t1", "app1", 42⟩, "application/json"⟩ ∧
    onMessage ⟨0, "https://example.social", "abc123", "app1", "sec",
        "https://client/cb", "t1"⟩
      (⟨"update", (42 : Nat)⟩ : Frame Nat) = none := by
  constructor
  · exact (C1_onMessage_spec _ _).1 rfl
  · exact (C1_onMessage_spec _ _).2 (by decide)

/-- C3: a close event with code 1000 always destroys the registration row and
removes the registry entry of the session; a close event with any other code never
destroys the registration, leaves the registry entry as it was, and schedules
exactly one reconnect attempt with the fixed 5000 ms delay. -/
theorem C3_onClose_spec (st : St) (code : Int) :
    (code = 1000 →
      (onCloseFn st code).dbHasReg = false ∧ (onCloseFn st code).stored = none) ∧
    (code ≠ 1000 →
      (onCloseFn st code).dbHasReg = st.dbHasReg ∧
      (onCloseFn st code).stored = st.stored ∧
      (onCloseFn st code).timers = st.timers ++ [5000]) := by
  constructor
  · intro h
    subst h
    exact ⟨by simpa [onCloseFn] using closeFn_dbHasReg st,
      by simpa [onCloseFn] using closeFn_stored st⟩
  · intro h
    simp [onCloseFn, h]

theorem C3_onClose_spec_witness :
    ((onCloseFn ⟨some 0, [0], [], true, true, 1⟩ 1000).dbHasReg = false ∧
      (onCloseFn ⟨some 0, [0], [], true, true, 1⟩ 1000).stored = none) ∧
    ((onCloseFn ⟨some 0, [0], [], true, true, 1⟩ 1006).dbHasReg = true ∧
      (onCloseFn ⟨some 0, [0], [], true, true, 1⟩ 1006).stored = some 0 ∧
      (onCloseFn ⟨some 0, [0], [], true, true, 1⟩ 1006).timers = [] ++ [5000]) := by
  constructor
  · exact (C3_onClose_spec ⟨some 0, [0], [], true, true, 1⟩ 1000).1 rfl
  · exact (C3_onClose_spec ⟨some 0, [0], [], true, true, 1⟩ 1006).2 (by decide)

/-- C4: when the periodic expiry check fires at time `now` and reads row `r`:
a row renewed strictly less than 3 days ago never terminates the session; a
missing row, or one whose `lastUpdate` is at least 3 days old, terminates the
session (registry entry removed) and destroys the registration. -/
theorem C4_expiry_spec (st : St) (now : Int) (r : Option RegRecord)
    (rec : RegRecord) :
    (r = some rec → now - rec.lastUpdate < 86400000 * 3 →
      heartbeatExpiry st now r = st) ∧
    (r = none →
      (heartbeatExpiry st now r).dbHasReg = false ∧
      (heartbeatExpiry st now r).stored = none) ∧
    (r = some rec → now - rec.lastUpdate ≥ 86400000 * 3 →
      (heartbeatExpiry st now r).dbHasReg = false ∧
      (heartbeatExpiry st now r).stored = none) := by
  refine ⟨?_, ?_, ?_⟩
  · intro hr hlt
    subst hr
    have hd : expiryDecision now (some rec) = false := by
      simp only [expiryDecision, decide_eq_false_iff_not]
      omega
    simp [heartbeatExpiry, hd]
  · intro hr
    subst hr
    have hd : expiryDecision now none = true := rfl
    simpa [heartbeatExpiry, hd] using
      ⟨closeFn_dbHasReg st, closeFn_stored st⟩
  · intro hr hge
    subst hr
    have hd : expiryDecision now (some rec) = true := by
      simp only [expiryDecision, decide_eq_true_eq]
      omega
    simpa [heartbeatExpiry, hd] using
      ⟨closeFn_dbHasReg st, closeFn_stored st⟩

theorem C4_expiry_spec_witness :
    heartbeatExpiry ⟨some 0, [0], [], true, true, 1⟩ 86400000 (some ⟨10⟩) =
      ⟨some 0, [0], [], true, true, 1⟩ ∧
    ((heartbeatExpiry ⟨some 0, [0], [], true, true, 1⟩ 86400000 none).dbHasReg =
        false ∧
      (heartbeatExpiry ⟨some 0, [0], [], true, true, 1⟩ 86400000 none).stored =
        none) ∧
    ((heartbeatExpiry ⟨some 0, [0], [], true, true, 1⟩ 259200010 (some ⟨10⟩)).dbHasReg =
        false ∧
      (heartbeatExpiry ⟨some 0, [0], [], true, true, 1⟩ 259200010 (some ⟨10⟩)).stored =
        none) := by
  refine ⟨?_, ?_, ?_⟩
  · exact (C4_expiry_spec ⟨some 0, [0], [], true, true, 1⟩ 86400000 (some ⟨10⟩)
      ⟨10⟩).1 rfl (by decide)
  · exact (C4_expiry_spec ⟨some 0, [0], [], true, true, 1⟩ 86400000 none
      ⟨10⟩).2.1 rfl
  · exact (C4_expiry_spec ⟨some 0, [0], [], true, true, 1⟩ 259200010 (some ⟨10⟩)
      ⟨10⟩).2.2 rfl (by decide)

/-- C6: a `connectForUser` call for a key that already has a stored socket is
a no-op: it reports success without constructing a socket, without altering
the state, and without touching the store. -/
theorem C6_connect_noop (appMap : List (String × AppEntry))
    (instanceMap : List (String × InstanceEntry)) (st : St)
    (registration : Registration) (n : Nat) (h : st.stored = some n) :
    connectForUserFn appMap instanceMap st registration =
      (st, ConnectResult.alreadyRegistered) := by
  simp [connectForUserFn, h]

theorem C6_connect_noop_witness :
    connectForUserFn [("app1", ⟨"sec"⟩)] [("https://inst", ⟨none⟩)]
      ⟨some 0, [0], [], true, true, 1⟩
      ⟨0, "https://inst", "abc", "app1", "sec", "https://cb", "t1"⟩ =
      (⟨some 0, [0], [], true, true, 1⟩, ConnectResult.alreadyRegistered) :=
  C6_connect_noop _ _ _ _ 0 rfl

/-- C2 counterexample: a registration whose access token contains `?` passes
the checks of `connectForUser` (which never call `checkAccessToken`) and a
WebSocket is constructed for it — the invalid token even appears in the
connection URL. This is the path taken for every stored registration at
process start. -/
theorem C2_counterexample :
    checkAccessToken "ab?c" = some "access_token contains invalid character" ∧
    (connectForUserFn [("app1", ⟨"sec"⟩)] [("https://inst", ⟨none⟩)] initSt
        ⟨0, "https://inst", "ab?c", "app1", "sec", "https://cb", "t1"⟩).2 =
      ConnectResult.socketCreated
        "https://inst/api/v1/streaming/?access_token=ab?c&stream=user" := by
  constructor
  · decide
  · decide

/-- C2 amended: only the `/register` endpoint validates the access token — an
empty token or one containing any of `? & = /` is rejected there (HTTP 400),
before `connectForUser` is called; `connectForUser` itself performs no token
validation, so the restore-at-process-start path constructs a WebSocket for
such a registration whenever the app and instance checks pass. -/
theorem C2_amended_token_check (appMap : List (String × AppEntry))
    (instanceMap : List (String × InstanceEntry))
    (instance_url access_token app_id app_secret e : String)
    (hinst : checkInstanceUrl instanceMap (toLowerCase instance_url) = none)
    (htok : checkAccessToken access_token = some e) :
    registerCheck appMap instanceMap instance_url access_token app_id
        app_secret = some e ∧
    ∀ (st : St) (registration : Registration), st.stored = none →
      checkAppId appMap registration.appId registration.appSecret = none →
      checkInstanceUrl instanceMap registration.instanceUrl = none →
      (connectForUserFn appMap instanceMap st registration).2 =
        ConnectResult.socketCreated (streamUrl instanceMap registration) := by
  constructor
  · simp [registerCheck, hinst, htok]
  · intro st registration hst happ hio
    simp [connectForUserFn, hst, happ, hio]

theorem C2_amended_token_check_witness :
    registerCheck [("app1", ⟨"sec"⟩)] [("https://inst", ⟨none⟩)]
        "https://inst" "ab?c" "app1" "sec" =
      some "access_token contains invalid character" ∧
    ∀ (st : St) (registration : Registration), st.stored = none →
      checkAppId [("app1", ⟨"sec"⟩)] registration.appId
          registration.appSecret = none →
      checkInstanceUrl [("https://inst", ⟨none⟩)] registration.instanceUrl =
          none →
      (connectForUserFn [("app1", ⟨"sec"⟩)] [("https://inst", ⟨none⟩)] st
          registration).2 =
        ConnectResult.socketCreated
          (streamUrl [("https://inst", ⟨none⟩)] registration) :=
  C2_amended_token_check [("app1", ⟨"sec"⟩)] [("https://inst", ⟨none⟩)]
    "https://inst" "ab?c" "app1" "sec"
    "access_token contains invalid character" (by decide) (by decide)

/-- C7 counterexample: `disconnectForUser` with no session present still
destroys the registration (it is not a no-op), and when a session is present
it does not clear the heartbeat interval (that is done by the `close()`
wrapper or by `reconnect()`, not by `disconnectForUser`). -/
theorem C7_counterexample :
    disconnectForUser ⟨none, [], [], true, false, 0⟩ ≠
      ⟨none, [], [], true, false, 0⟩ ∧
    (disconnectForUser ⟨some 0, [0], [], true, true, 1⟩).heartbeat = true := by
  constructor
  · decide
  · decide

/-- C7 amended: `disconnectForUser` always destroys the registration in the
store; if a session is present it closes the stored socket and removes the
registry entry (leaving the heartbeat interval untouched — clearing it is the
job of the `close()` wrapper of the caller); if no session is present, the socket and
registry state are untouched but the registration is still destroyed, so the
call is not a no-op. -/
theorem C7_amended_disconnect (st : St) :
    (disconnectForUser st).dbHasReg = false ∧
    (disconnectForUser st).heartbeat = st.heartbeat ∧
    (st.stored = none →
      (disconnectForUser st).stored = none ∧
      (disconnectForUser st).live = st.live) ∧
    (∀ t, st.stored = some t →
      (disconnectForUser st).stored = none ∧
      t ∉ (disconnectForUser st).live) := by
  refine ⟨?_, ?_, ?_, ?_⟩
  · cases h : st.stored <;> simp [disconnectForUser, disconnectForUserF, h]
  · cases h : st.stored <;> simp [disconnectForUser, disconnectForUserF, h]
  · intro h
    simp [disconnectForUser, disconnectForUserF, h]
  · intro t h
    simp [disconnectForUser, disconnectForUserF, h]

theorem C7_amended_disconnect_witness :
    (disconnectForUser ⟨some 0, [0], [], true, true, 1⟩).dbHasReg = false ∧
    (disconnectForUser ⟨some 0, [0], [], true, true, 1⟩).heartbeat = true ∧
    ((disconnectForUser ⟨some 0, [0], [], true, true, 1⟩).stored = none ∧
      (0 : Nat) ∉ (disconnectForUser ⟨some 0, [0], [], true, true, 1⟩).live) := by
  have h := C7_amended_disconnect ⟨some 0, [0], [], true, true, 1⟩
  exact ⟨h.1, h.2.1, h.2.2.2 0 rfl⟩

/-- C9 counterexample: when the destroy in the store fails, the session has
nevertheless already been removed from the registry — the source deletes
`wsStorage[ws_key]` before calling `registration.destroy()`, whose rejection
is unhandled. -/
theorem C9_counterexample :
    (disconnectForUserF ⟨some 0, [0], [], true, true, 1⟩ false).stored = none ∧
    (disconnectForUserF ⟨some 0, [0], [], true, true, 1⟩ false).dbHasReg =
      true := by
  constructor
  · decide
  · decide

/-- C9 amended: registry removal precedes the destroy attempt and does not
depend on its outcome: after `disconnectForUser` the registry entry for the
key is always gone, and a failed destroy leaves the registration row in the
store with no registry entry (the failure is only logged), rather than
keeping the session for a retry. -/
theorem C9_amended_removal_first (st : St) (destroyOk : Bool) :
    (disconnectForUserF st destroyOk).stored = none ∧
    (destroyOk = false →
      (disconnectForUserF st destroyOk).dbHasReg = st.dbHasReg) := by
  constructor
  · cases h : st.stored <;> cases destroyOk <;>
      simp [disconnectForUserF, h]
  · intro hd
    subst hd
    cases h : st.stored <;> simp [disconnectForUserF, h]

theorem C9_amended_removal_first_witness :
    (disconnectForUserF ⟨some 3, [3], [], true, true, 4⟩ false).stored = none ∧
    (disconnectForUserF ⟨some 3, [3], [], true, true, 4⟩ false).dbHasReg =
      true :=
  ⟨(C9_amended_removal_first ⟨some 3, [3], [], true, true, 4⟩ false).1,
    (C9_amended_removal_first ⟨some 3, [3], [], true, true, 4⟩ false).2 rfl⟩

/-- The effect of the socket open handler on the `last_check` clock: it starts
the heartbeat interval but does not modify `last_check`. -/
def onOpenLastCheck (lastCheck : Int) : Int := lastCheck

/-- C8 counterexample: with the socket opening at wall-clock time
1700000000000, the very first heartbeat tick 10 s later already performs a
store read — `last_check` starts at 0 from `connectForUser` and is not set to
the open time, so the read happens far earlier than 24 h after the open. -/
theorem C8_counterexample :
    tickReads (onOpenLastCheck connectInitialLastCheck) [1700000010000] =
      [1700000010000] ∧
    (1700000010000 : Int) < 1700000000000 + 86400000 := by
  constructor
  · decide
  · decide

/-- C8 amended: opening the socket does not set the expiry-check clock;
`last_check` keeps the value 0 assigned in `connectForUser`, so the first
heartbeat tick whose wall-clock time is at least 24 h after the epoch
performs a store read regardless of when the socket opened. What does hold is
the spacing bound: starting from any clock value, each store read is at least
24 h after the previous one (and the first at least 24 h after the
starting value of the clock). -/
theorem C8_amended_read_spacing (lastCheck : Int) (ticks : List Int) :
    onOpenLastCheck lastCheck = lastCheck ∧
    List.Chain (fun a b => 86400000 ≤ b - a) lastCheck
      (tickReads lastCheck ticks) := by
  refine ⟨rfl, ?_⟩
  induction ticks generalizing lastCheck with
  | nil => exact List.Chain.nil
  | cons now rest ih =>
    by_cases h : 86400000 ≤ now - lastCheck
    · simp only [tickReads, ge_iff_le, if_pos h]
      exact List.Chain.cons h (ih now)
    · simp only [tickReads, ge_iff_le, if_neg h]
      exact ih lastCheck

/-- C5 counterexample trace: a socket error followed by an abnormal close on
the same socket schedules two independent reconnect timeouts; when both fire,
each constructs a socket without checking or closing the previous one, so two
concurrently live sockets exist for the same registration key. -/
theorem C5_counterexample :
    runEvents initSt
        [Ev.connectUser [("app1", ⟨"sec"⟩)] [("https://inst", ⟨none⟩)]
            ⟨0, "https://inst", "abc", "app1", "sec", "https://cb", "t1"⟩,
          Ev.sockError 0, Ev.sockClose 0 1006, Ev.timerFire, Ev.timerFire] =
      some ⟨some 2, [1, 2], [], true, false, 3⟩ ∧
    2 ≤ (⟨some 2, [1, 2], [], true, false, 3⟩ : St).live.length := by
  constructor
  · decide
  · decide

/-- Is the event a `connectForUser` call? -/
def isConnectEv : Ev → Bool
  | .connectUser _ _ _ => true
  | _ => false

/-- The stored socket is the only live socket. -/
def StoredLiveInv (st : St) : Prop :=
  st.live = st.stored.toList

/-- Running `connectForUser` preserves the stored-socket/live-socket agreement. -/
theorem connect_preserves_inv (appMap : List (String × AppEntry))
    (instanceMap : List (String × InstanceEntry)) (st : St)
    (registration : Registration) (h : StoredLiveInv st) :
    StoredLiveInv (connectForUserFn appMap instanceMap st registration).1 := by
  cases hs : st.stored with
  | some n =>
    simpa [connectForUserFn, hs] using h
  | none =>
    have hl : st.live = [] := by simpa [StoredLiveInv, hs] using h
    cases ha : checkAppId appMap registration.appId registration.appSecret with
    | some e =>
      simp [connectForUserFn, hs, ha, StoredLiveInv, closeFn,
        disconnectForUser, disconnectForUserF, hl]
    | none =>
      cases hi : checkInstanceUrl instanceMap registration.instanceUrl with
      | some e =>
        simp [connectForUserFn, hs, ha, hi, StoredLiveInv, closeFn,
          disconnectForUser, disconnectForUserF, hl]
      | none =>
        simp [connectForUserFn, hs, ha, hi, StoredLiveInv, reconnectFn, hl]

/-- A state where the stored socket is the only live one has at most one live
socket. -/
theorem inv_live_length_le_one (st : St) (h : StoredLiveInv st) :
    st.live.length ≤ 1 := by
  rw [StoredLiveInv] at h
  rw [h]
  cases st.stored <;> simp

/-- C5 amended: under interleavings consisting only of `connectForUser`
calls, at most one live socket per registration key ever exists (the entry
check in `connectForUser` guarantees this); the at-most-one-socket guarantee
does not extend to reconnect events — an error followed by an abnormal close
on the same socket schedules two reconnect timeouts whose firings construct
two concurrently live sockets for the key. -/
theorem C5_amended_connect_only (evs : List Ev)
    (hevs : ∀ e ∈ evs, isConnectEv e = true) :
    ∀ st st', StoredLiveInv st → runEvents st evs = some st' →
      st'.live.length ≤ 1 := by
  induction evs with
  | nil =>
    intro st st' hinv hrun
    have : st = st' := by simpa [runEvents] using hrun
    exact this ▸ inv_live_length_le_one st hinv
  | cons e rest ih =>
    intro st st' hinv hrun
    have he : isConnectEv e = true := hevs e (List.mem_cons_self e rest)
    have hr : ∀ e' ∈ rest, isConnectEv e' = true := fun e' h' =>
      hevs e' (List.mem_cons_of_mem e h')
    cases e with
    | connectUser am im r =>
      have hrun' :
          runEvents (connectForUserFn am im st r).1 rest = some st' := by
        simpa [runEvents, stepEv] using hrun
      exact ih hr _ _ (connect_preserves_inv am im st r hinv) hrun'
    | sockError sid => simp [isConnectEv] at he
    | sockClose sid code => simp [isConnectEv] at he
    | timerFire => simp [isConnectEv] at he

theorem C5_amended_connect_only_witness :
    runEvents initSt
        [Ev.connectUser [("app1", ⟨"sec"⟩)] [("https://inst", ⟨none⟩)]
            ⟨0, "https://inst", "abc", "app1", "sec", "https://cb", "t1"⟩,
          Ev.connectUser [("app1", ⟨"sec"⟩)] [("https://inst", ⟨none⟩)]
            ⟨0, "https://inst", "abc", "app1", "sec", "https://cb", "t1"⟩] =
      some ⟨some 0, [0], [], true, false, 1⟩ ∧
    (⟨some 0, [0], [], true, false, 1⟩ : St).live.length ≤ 1 := by
  constructor
  · decide
  · refine C5_amended_connect_only
      [Ev.connectUser [("app1", ⟨"sec"⟩)] [("https://inst", ⟨none⟩)]
          ⟨0, "https://inst", "abc", "app1", "sec", "https://cb", "t1"⟩,
        Ev.connectUser [("app1", ⟨"sec"⟩)] [("https://inst", ⟨none⟩)]
          ⟨0, "https://inst", "abc", "app1", "sec", "https://cb", "t1"⟩]
      ?_ initSt ⟨some 0, [0], [], true, false, 1⟩ (by rfl) (by decide)
    intro e he
    simp only [List.mem_cons, List.not_mem_nil, or_false] at he
    rcases he with rfl | rfl
    · rfl
    · rfl

/-- C10 counterexample: two distinct (instanceUrl, appId, tag) triples whose
registry keys coincide, because `:` may occur inside the components. -/
theorem C10_counterexample :
    wsKey "a" "b:c" "d" = wsKey "a:b" "c" "d" ∧
    ¬(("a" : String) = "a:b" ∧ ("b:c" : String) = "c" ∧
      ("d" : String) = "d") := by
  constructor
  · decide
  · decide

/-- Splitting at the last separator: when neither suffix contains the
separator character, equal separated concatenations have equal parts. -/
theorem sep_split_last {y y' : List Char} (hy : ':' ∉ y) (hy' : ':' ∉ y') :
    ∀ x x' : List Char, x ++ ':' :: y = x' ++ ':' :: y' → x = x' ∧ y = y' := by
  intro x
  induction x with
  | nil =>
    intro x' h
    cases x' with
    | nil =>
      simp only [List.nil_append, List.cons.injEq] at h
      exact ⟨rfl, h.2⟩
    | cons c x2 =>
      simp only [List.nil_append, List.cons_append, List.cons.injEq] at h
      exfalso
      apply hy
      rw [h.2]
      exact List.mem_append_right x2 (List.mem_cons_self ':' y')
  | cons c x2 ih =>
    intro x' h
    cases x' with
    | nil =>
      simp only [List.cons_append, List.nil_append, List.cons.injEq] at h
      exfalso
      apply hy'
      rw [← h.2]
      exact List.mem_append_right x2 (List.mem_cons_self ':' y)
    | cons c' x2' =>
      simp only [List.cons_append, List.cons.injEq] at h
      obtain ⟨rfl, h2⟩ := h
      obtain ⟨rfl, rfl⟩ := ih x2' h2
      exact ⟨rfl, rfl⟩

/-- The character data of a registry key, grouped at the two separators. -/
theorem wsKey_data (u a t : String) :
    (wsKey u a t).data = (u.data ++ ':' :: a.data) ++ ':' :: t.data := by
  have hc : (":" : String).data = [':'] := rfl
  simp [wsKey, String.data_append, hc, List.append_assoc]

/-- C10 amended: the registry-key encoding `instanceUrl:appId:tag` is
injective on triples whose `appId` and `tag` contain no `:` character; for
triples where `appId` or `tag` contains `:`, distinct triples can collide
(see the counterexample), so key-based start/stop could operate on another
session of another registration only in that case. -/
theorem C10_amended_key_injective (u a t u' a' t' : String)
    (ha : ':' ∉ a.data) (ht : ':' ∉ t.data)
    (ha' : ':' ∉ a'.data) (ht' : ':' ∉ t'.data)
    (h : wsKey u a t = wsKey u' a' t') :
    u = u' ∧ a = a' ∧ t = t' := by
  have hd : (u.data ++ ':' :: a.data) ++ ':' :: t.data =
      (u'.data ++ ':' :: a'.data) ++ ':' :: t'.data := by
    have hdata := congrArg String.data h
    rwa [wsKey_data, wsKey_data] at hdata
  obtain ⟨h1, h2⟩ := sep_split_last ht ht' _ _ hd
  obtain ⟨h3, h4⟩ := sep_split_last ha ha' _ _ h1
  exact ⟨String.ext h3, String.ext h4, String.ext h2⟩

theorem C10_amended_key_injective_witness :
    ("https://inst" : String) = "https://inst" ∧
      ("app1" : String) = "app1" ∧ ("t1" : String) = "t1" :=
  C10_amended_key_injective "https://inst" "app1" "t1" "https://inst" "app1"
    "t1" (by decide) (by decide) (by decide) (by decide) (by decide)
